import Mathlib

/-!
Verification of the National Rail UK config flow
(`custom_components/nationalrailuktb/config_flow.py`).

The Python module is a thin, sequential wizard: it normalizes user input,
validates it against a remote rail-data client via two probe calls
(`validate_input`), persists the API token in a small key-value store
(`get_stored_token` / `save_token`), and either creates/updates a
configuration entry or redisplays the form with an error tag.

This file gives a shallow embedding of that module.  Python strings are
modelled as Lean `String`s, with the handful of Python string methods the
source uses (`strip`, `upper`, `replace(" ", "")`, `split(",")`) translated
to executable Lean functions over the character list.  The remote client is
a black-box function from a call record to a result, as the spec treats it.
Exceptions are modelled with `Except` and explicit outcome types; the
side-effecting calls a flow step performs (client calls, token saves, entry
creation/update, reload) are recorded in an explicit event trace.
-/

namespace NationalRailTB

/-! ## Python string primitives

Each definition models the Python string method named in its comment, on
the string's character sequence. -/

/-- Python `s.strip()`: remove leading and trailing whitespace. -/
def pyStrip (s : String) : String :=
  String.mk (((s.toList.dropWhile Char.isWhitespace).reverse.dropWhile
    Char.isWhitespace).reverse)

/-- Python `s.upper()` (on the ASCII letters the flow deals with). -/
def pyUpper (s : String) : String :=
  String.mk (s.toList.map Char.toUpper)

/-- Python `s.replace(" ", "")`: since the pattern is the single space
character, this removes every space character from `s`. -/
def pyReplaceSpace (s : String) : String :=
  String.mk (s.toList.filter (fun c => c ≠ ' '))

/-- Python `s.split(",")` on the character list: split at every comma;
`"".split(",") = [""]`, `"a,,b".split(",") = ["a","","b"]`. -/
def pySplitCommaChars : List Char → List (List Char)
  | [] => [[]]
  | c :: cs =>
    match pySplitCommaChars cs with
    | [] => [[]]
    | r :: rs => if c = ',' then [] :: r :: rs else (c :: r) :: rs

/-- Python `s.split(",")`. -/
def pySplitComma (s : String) : List String :=
  (pySplitCommaChars s.toList).map String.mk

/-- Python truthiness of an optional string: `None` and `""` are falsy. -/
def pyTruthy : Option String → Bool
  | none => false
  | some s => s ≠ ""

/-- Python `a or b` on optional strings: `a` when `a` is truthy, else `b`. -/
def pyOrStr (a b : Option String) : Option String :=
  if pyTruthy a then a else b

/-! ## Token store (`get_stored_token` / `save_token`)

`storage.Store(hass, STORAGE_VERSION, STORAGE_KEY)` is a persisted
single-value JSON store.  Its state is modelled explicitly: `none` when the
store holds no saved data, `some d` when it holds the dict `d` (an
association list of string keys and values). -/

/-- The contents of the versioned key-value store scoped to this
integration: `none` models an empty store (`store.async_load()` returning
`None`), `some d` a saved dict. -/
abbrev StoreData := Option (List (String × String))

/-- Python `d.get(k)` on a string-valued dict. -/
def dict_get (k : String) : List (String × String) → Option String
  | [] => none
  | (k2, v) :: rest => if k2 = k then some v else dict_get k rest

/-- `get_stored_token`: load the store and return `data.get("token") if
data else None`.  Note the Python truthiness test: an empty dict is falsy,
so it also yields `None`. -/
def get_stored_token : StoreData → Option String
  | none => none
  | some [] => none
  | some d => dict_get "token" d

/-- `save_token`: `store.async_save({"token": token})`; returns the new
store contents. -/
def save_token (token : String) : StoreData :=
  some [("token", token)]

/-! ## The remote rail client (external collaborator)

`NationalRailClient(token, station, destinations).async_get_data()` is one
remote call, identified by its three constructor arguments.  It returns a
response dict (of which the flow only reads the optional `"station"` key)
or raises `NationalRailClientInvalidToken`,
`NationalRailClientInvalidInput`, or some other exception. -/

/-- One invocation of the remote client: the arguments of
`NationalRailClient(token, station, destinations)`. -/
structure ClientCall where
  token : String
  station : String
  destinations : List String
deriving DecidableEq, Repr

/-- The distinguishable exception kinds the remote client can raise. -/
inductive ClientError where
  /-- `NationalRailClientInvalidToken` -/
  | invalidToken
  /-- `NationalRailClientInvalidInput` -/
  | invalidInput
  /-- any other exception (network failure, etc.) -/
  | other
deriving DecidableEq, Repr

/-- Outcome of one remote call: a response (of which only the optional
`"station"` entry matters to the flow) or a raised exception. -/
inductive ClientResult where
  /-- a successful response; `station` models `res.get("station")` -/
  | ok (station : Option String)
  /-- a raised exception -/
  | err (e : ClientError)
deriving DecidableEq, Repr

/-- The remote client as a black box: every call is answered by a fixed
function of its arguments. -/
abbrev Client := ClientCall → ClientResult

/-! ## `validate_input` -/

/-- The dict passed to `validate_input` (keys `CONF_TOKEN`, `CONF_STATION`,
`CONF_DESTINATIONS`; both call sites populate all three, with
`destinations` already coerced to a string, `""` when absent). -/
structure ValidateData where
  token : String
  station : String
  destinations : String
deriving DecidableEq, Repr

/-- The dict `validate_input` returns on success. -/
structure ValidateInfo where
  title : String
  station_name : String
deriving DecidableEq, Repr

/-- How `validate_input` can terminate abnormally.  The two `raise`d flow
exceptions are `invalidToken` and `invalidInput`; a client exception that
no `except` clause in `validate_input` matches propagates out unmapped
(`uncaught`). -/
inductive ValidateError where
  /-- the flow's `InvalidToken` exception -/
  | invalidToken
  /-- the flow's `InvalidInput` exception -/
  | invalidInput
  /-- a client exception escaping `validate_input` uncaught -/
  | uncaught (e : ClientError)
deriving DecidableEq, Repr

/-- Probe 1 of `validate_input`: `NationalRailClient(data[CONF_TOKEN],
"WAT", ["CHK"])` — the fixed sentinel station/destination pair. -/
def probe1Call (data : ValidateData) : ClientCall :=
  ⟨data.token, "WAT", ["CHK"]⟩

/-- `destinations_list`: `data[CONF_DESTINATIONS].split(",") if
data.get(CONF_DESTINATIONS) else []`. -/
def destinations_list (data : ValidateData) : List String :=
  if data.destinations ≠ "" then pySplitComma data.destinations else []

/-- Probe 2 of `validate_input`: `NationalRailClient(data[CONF_TOKEN],
data[CONF_STATION], destinations_list)`. -/
def probe2Call (data : ValidateData) : ClientCall :=
  ⟨data.token, data.station, destinations_list data⟩

/-- `validate_input(hass, data)`.  Returns the outcome together with the
list of remote calls performed, in order.

Probe 1's `try` catches only `NationalRailClientInvalidToken` (re-raised
as `InvalidToken`); any other client exception there propagates uncaught.
Probe 2's `try` catches only `NationalRailClientInvalidInput` (re-raised
as `InvalidInput`); likewise anything else propagates.  On success the
station name is `res.get("station", data[CONF_STATION])` and the title
interpolates `data["destinations"]` — the raw string field — after the
arrow. -/
def validate_input (client : Client) (data : ValidateData) :
    Except ValidateError ValidateInfo × List ClientCall :=
  match client (probe1Call data) with
  | .err .invalidToken => (Except.error .invalidToken, [probe1Call data])
  | .err e => (Except.error (.uncaught e), [probe1Call data])
  | .ok _ =>
    match client (probe2Call data) with
    | .err .invalidInput =>
        (Except.error .invalidInput, [probe1Call data, probe2Call data])
    | .err e =>
        (Except.error (.uncaught e), [probe1Call data, probe2Call data])
    | .ok res =>
        let station_name := res.getD data.station
        let title :=
          if data.destinations ≠ "" then
            "Train Schedule " ++ station_name ++ " -> " ++ data.destinations
          else
            "Train Schedule " ++ station_name ++ " (All Destinations)"
        (Except.ok ⟨title, station_name⟩, [probe1Call data, probe2Call data])

/-! ## Flow steps

Each flow step is modelled on its submission path (`user_input is not
None`).  The initial-display branches only build a form schema (and, in the
options flow, attempt a silently-swallowed display-name lookup); they carry
no decision logic relevant to the claims and are elided.  The form schemas
themselves are declarative and likewise elided: a shown form is recorded as
its step id and its `errors` dict.

Every externally visible side effect a step performs is recorded, in
order, in an event trace. -/

/-- A side effect performed by a flow step, in program order. -/
inductive Event where
  /-- one remote client call (from `validate_input`) -/
  | clientCall (call : ClientCall)
  /-- `save_token(hass, token)` -/
  | tokenSave (token : String)
  /-- `async_create_entry(title=..., data=...)` creating a config entry -/
  | entryCreate (title : String) (data : ValidateData)
  /-- `async_update_entry(entry, data=..., title=...)` -/
  | entryUpdate (data : ValidateData) (title : String)
  /-- `async_reload(entry_id)` -/
  | entryReload
deriving DecidableEq, Repr

/-- What a flow step hands back to the host. -/
inductive FlowResult where
  /-- `async_show_form(step_id=..., errors=...)`; `errors` is the error
  dict, `[("base", tag)]` when a tag was set -/
  | showForm (step_id : String) (errors : List (String × String))
  /-- `async_create_entry(title=..., data=...)` ending the setup flow -/
  | createEntry (title : String) (data : ValidateData)
  /-- `async_create_entry(title="", data=\x7b\x7d)` ending the options flow -/
  | finishOptions
  /-- an exception escaping the step handler uncaught, named by its Python
  exception class -/
  | unhandledError (exc : String)
deriving DecidableEq, Repr

/-- The `except` chain shared verbatim by both steps: `InvalidToken` sets
`errors["base"] = "invalid_token"`, `InvalidInput` sets
`"invalid_station_input"`, the `except Exception` catch-all sets
`"unknown"`. -/
def errorTag : ValidateError → String
  | .invalidToken => "invalid_token"
  | .invalidInput => "invalid_station_input"
  | .uncaught _ => "unknown"

/-- The submitted `user_input` dict of the setup step, after schema
validation: token (required, or defaulted from the stored token by the
schema), station (required), destinations (optional; `none` when the field
was omitted). -/
structure UserStepInput where
  token : String
  station : String
  destinations : Option String
deriving DecidableEq, Repr

/-- The destinations mutation in `ConfigFlow.async_step_user`:
`user_input[CONF_DESTINATIONS].strip().replace(" ", "").upper()` when
`user_input.get(CONF_DESTINATIONS)` is truthy, else `""`. -/
def normalize_destinations_user (d : Option String) : String :=
  match d with
  | some s => if s ≠ "" then pyUpper (pyReplaceSpace (pyStrip s)) else ""
  | none => ""

/-- The in-place normalization `ConfigFlow.async_step_user` applies to
`user_input` before validating: station is `strip().upper()`, destinations
as in `normalize_destinations_user`, token untouched. -/
def userStepNormalize (raw : UserStepInput) : ValidateData :=
  { token := raw.token
    station := pyUpper (pyStrip raw.station)
    destinations := normalize_destinations_user raw.destinations }

/-- `ConfigFlow.async_step_user` on a submission.  `store` is the token
store's current contents (read for the form-schema default, which is
elided).  On validation failure the `except` chain maps the exception to a
tag and the form is redisplayed; on success (the `try`'s `else` clause) the
token is saved and the entry created with the normalized data. -/
def ConfigFlow.async_step_user (client : Client) (store : StoreData)
    (user_input : UserStepInput) : FlowResult × List Event :=
  let _stored_token := get_stored_token store
  let data := userStepNormalize user_input
  match validate_input client data with
  | (.error e, calls) =>
      (.showForm "user" [("base", errorTag e)], calls.map Event.clientCall)
  | (.ok info, calls) =>
      (.createEntry info.title data,
       calls.map Event.clientCall
         ++ [Event.tokenSave data.token, Event.entryCreate info.title data])

/-- The config entry's `data` dict as the options flow reads it
(`self._entry.data.get(...)` for each key; a key can be absent). -/
structure OptionsEntry where
  token : Option String
  station : Option String
  destinations : Option String
deriving DecidableEq, Repr

/-- The submitted `user_input` dict of the options step: station
(required), destinations (optional). -/
structure InitStepInput where
  station : String
  destinations : Option String
deriving DecidableEq, Repr

/-- The destinations mutation in `OptionsFlowHandler.async_step_init` —
textually the same code as in the setup step. -/
def normalize_destinations_init (d : Option String) : String :=
  match d with
  | some s => if s ≠ "" then pyUpper (pyReplaceSpace (pyStrip s)) else ""
  | none => ""

/-- The in-place normalization `OptionsFlowHandler.async_step_init`
applies to `user_input`: `(station, destinations)` after the same
`strip`/`upper`/`replace` treatment as the setup step. -/
def initStepNormalize (raw : InitStepInput) : String × String :=
  (pyUpper (pyStrip raw.station), normalize_destinations_init raw.destinations)

/-- How the `try` body of `OptionsFlowHandler.async_step_init` ends. -/
inductive InitTryOutcome where
  /-- `token` was falsy: `errors["base"] = "no_token"` was set and the body
  finished without raising — but `info` was never assigned -/
  | noToken
  /-- `validate_input` returned: `info` is bound -/
  | validated (token : String) (info : ValidateInfo) (calls : List ClientCall)
  /-- an exception was raised and matched by an `except` clause -/
  | caught (e : ValidateError) (calls : List ClientCall)
deriving Repr

/-- The `try` body of the options submission: resolve the token as
`stored_token or entry.data.get(CONF_TOKEN)` (Python `or`, so an empty
string is as falsy as a missing one); if falsy, record `no_token` and fall
through; otherwise run `validate_input` on the resolved token and the
normalized station/destinations. -/
def init_try (client : Client) (store : StoreData) (entry : OptionsEntry)
    (station destinations : String) : InitTryOutcome :=
  match pyOrStr (get_stored_token store) entry.token with
  | none => .noToken
  | some t =>
      if t = "" then .noToken
      else
        match validate_input client ⟨t, station, destinations⟩ with
        | (.error e, calls) => .caught e calls
        | (.ok info, calls) => .validated t info calls

/-- `OptionsFlowHandler.async_step_init` on a submission.  The `try`
statement has an `else:` clause, which Python runs whenever the `try` body
raised nothing — including the `no_token` path.  There the clause
evaluates `info["title"]`, but `info` was never assigned on that path, so
an `UnboundLocalError` is raised *inside the else clause*, where the
preceding `except` handlers no longer apply: it escapes the step.  (The
`async_update_entry` call never happens there: the error arises while its
arguments are being evaluated.)  On the `validated` path the entry is
updated with the resolved token and normalized input, the entry reloaded,
and the flow ended with `async_create_entry(title="", data=\x7b\x7d)`. -/
def OptionsFlowHandler.async_step_init (client : Client) (store : StoreData)
    (entry : OptionsEntry) (user_input : InitStepInput) :
    FlowResult × List Event :=
  let n := initStepNormalize user_input
  match init_try client store entry n.1 n.2 with
  | .caught e calls =>
      (.showForm "init" [("base", errorTag e)], calls.map Event.clientCall)
  | .validated t info calls =>
      (.finishOptions,
       calls.map Event.clientCall
         ++ [Event.entryUpdate ⟨t, n.1, n.2⟩ info.title, Event.entryReload])
  | .noToken => (.unhandledError "UnboundLocalError", [])

/-! ## Event-trace predicates -/

/-- Is this event a token-store save? -/
def isTokenSave : Event → Bool
  | .tokenSave _ => true
  | _ => false

/-- Is this event a config-entry creation? -/
def isEntryCreate : Event → Bool
  | .entryCreate _ _ => true
  | _ => false

/-! ## Spec-worded reference definition (for the C1 comparison)

The spec describes the destinations normalization as removing "all interior
whitespace"; the code removes only space characters.  The following
definition follows the spec's words, to be compared with the code's
`normalize_destinations_user`. -/

/-- The destinations normalization as the spec words it: if present and
non-empty after trim, remove all interior whitespace and uppercase,
otherwise coerce to the empty string. -/
def specNormalizeDestinations (d : Option String) : String :=
  match d with
  | none => ""
  | some s =>
      if pyStrip s = "" then ""
      else String.mk (((pyStrip s).toList.filter
        (fun c => !c.isWhitespace)).map Char.toUpper)

/-! ## Helper lemmas -/

/-- `Char.toUpper` never turns a non-space character into a space. -/
lemma toUpper_ne_space (c : Char) (hc : c ≠ ' ') : Char.toUpper c ≠ ' ' := by
  by_cases h : c.toNat ≥ 97 ∧ c.toNat ≤ 122
  · have he : Char.toUpper c = Char.ofNat (c.toNat - 32) := by
      unfold Char.toUpper
      simp [h]
    rw [he]
    obtain ⟨h1, h2⟩ := h
    revert h1 h2
    generalize c.toNat = n
    intro h1 h2 hcon
    interval_cases n <;> exact absurd hcon (by decide)
  · have he : Char.toUpper c = c := by
      unfold Char.toUpper
      simp [h]
    rw [he]
    exact hc

/-- Uppercasing after removing the spaces leaves a space-free string. -/
lemma space_not_mem_upper_replace (s : String) :
    ' ' ∉ (pyUpper (pyReplaceSpace s)).toList := by
  intro hmem
  have hmem2 : ' ' ∈ (s.toList.filter (fun c => c ≠ ' ')).map Char.toUpper := hmem
  rw [List.mem_map] at hmem2
  obtain ⟨c, hcf, hup⟩ := hmem2
  rw [List.mem_filter] at hcf
  exact toUpper_ne_space c (by simpa using hcf.2) hup

/-- Decidable equality for `Except`, so that concrete runs of
`validate_input` can be checked by `decide`. -/
instance {ε α : Type} [DecidableEq ε] [DecidableEq α] :
    DecidableEq (Except ε α) := fun a b =>
  match a, b with
  | .error x, .error y =>
      if h : x = y then .isTrue (by rw [h])
      else .isFalse (by intro hc; injection hc; contradiction)
  | .error _, .ok _ => .isFalse (by intro hc; cases hc)
  | .ok _, .error _ => .isFalse (by intro hc; cases hc)
  | .ok x, .ok y =>
      if h : x = y then .isTrue (by rw [h])
      else .isFalse (by intro hc; injection hc; contradiction)

/-- The value `validate_input` returns when both probes succeed with
probe-2 response `r`: station name `res.get("station", station)` and the
title composed from it and the raw destinations field. -/
def successInfo (data : ValidateData) (r : Option String) : ValidateInfo :=
  ⟨if data.destinations ≠ "" then
      "Train Schedule " ++ r.getD data.station ++ " -> " ++ data.destinations
    else
      "Train Schedule " ++ r.getD data.station ++ " (All Destinations)",
   r.getD data.station⟩

/-- When both probes succeed, `validate_input` returns `successInfo` and
the two probe calls. -/
lemma validate_input_ok (client : Client) (data : ValidateData)
    (r1 r2 : Option String)
    (h1 : client (probe1Call data) = ClientResult.ok r1)
    (h2 : client (probe2Call data) = ClientResult.ok r2) :
    validate_input client data
      = (Except.ok (successInfo data r2), [probe1Call data, probe2Call data]) := by
  simp [validate_input, h1, h2, successInfo]

/-! ## Claim C10 -/

/-- C10: token store round-trip — after `save_token t` the store contents
make `get_stored_token` return `t`, for every token string `t`; and on an
empty store `get_stored_token` returns `None` rather than failing. -/
theorem c10_token_roundtrip :
    (∀ t : String, get_stored_token (save_token t) = some t)
    ∧ get_stored_token (none : StoreData) = none :=
  ⟨fun _ => rfl, rfl⟩

/-! ## Claim C3 -/

/-- C3: against a client that reports an invalid token on every call,
`validate_input` fails with `InvalidToken` after the single sentinel call
(token, "WAT", ["CHK"]): probe 2, the call with the user-supplied station
and destinations, is never attempted. -/
theorem c3_invalid_token_short_circuits (client : Client)
    (data : ValidateData)
    (h : ∀ c, client c = ClientResult.err ClientError.invalidToken) :
    validate_input client data
      = (Except.error ValidateError.invalidToken, [probe1Call data]) := by
  simp [validate_input, h]

/-- The all-invalid-token client used to witness C3. -/
def c3Client : Client := fun _ => ClientResult.err ClientError.invalidToken

/-- A concrete validation input used to witness C3. -/
def c3Data : ValidateData := ⟨"T", "KGX", "AAA,BBB"⟩

/-- Witness for C3 at a concrete client and input. -/
theorem c3_invalid_token_short_circuits_witness :
    validate_input c3Client c3Data
      = (Except.error ValidateError.invalidToken, [probe1Call c3Data]) :=
  c3_invalid_token_short_circuits c3Client c3Data (fun _ => rfl)

/-! ## Claim C2 (corrected)

Probe 1's `try` catches only `NationalRailClientInvalidToken`.  A
station-irrelevant failure of probe 1 — e.g. the client raising
`NationalRailClientInvalidInput` on the sentinel call — is NOT caught
there: the exception propagates out of `validate_input` and probe 2 is
never attempted, contrary to the claim. -/

/-- The client refuting C2: probe 1 fails with the station-irrelevant
`NationalRailClientInvalidInput`. -/
def c2ClientCex : Client := fun _ => ClientResult.err ClientError.invalidInput

/-- A concrete validation input for the C2 counterexample. -/
def c2DataCex : ValidateData := ⟨"TOK", "PAD", ""⟩

/-- Counterexample to C2 as stated: when probe 1 reports invalid input
(an outcome other than invalid token), validation does NOT proceed to
probe 2 — the client exception escapes `validate_input` unmapped and the
only call made is the sentinel probe. -/
theorem c2_counterexample :
    validate_input c2ClientCex c2DataCex
      = (Except.error (ValidateError.uncaught ClientError.invalidInput),
         [probe1Call c2DataCex])
    ∧ probe2Call c2DataCex ∉ (validate_input c2ClientCex c2DataCex).2 := by
  decide

/-- C2 (amended): probe 1 behaviour of `validate_input` — an
invalid-token report fails with `InvalidToken`; a successful probe 1
proceeds to probe 2; any other probe-1 failure (invalid input, or any
other client exception) propagates out of `validate_input` uncaught,
without attempting probe 2. -/
theorem c2_probe1_outcomes (client : Client) (data : ValidateData) :
    (client (probe1Call data) = ClientResult.err ClientError.invalidToken →
      validate_input client data
        = (Except.error ValidateError.invalidToken, [probe1Call data]))
    ∧ (∀ r, client (probe1Call data) = ClientResult.ok r →
      (validate_input client data).2 = [probe1Call data, probe2Call data])
    ∧ (client (probe1Call data) = ClientResult.err ClientError.invalidInput →
      validate_input client data
        = (Except.error (ValidateError.uncaught ClientError.invalidInput),
           [probe1Call data]))
    ∧ (client (probe1Call data) = ClientResult.err ClientError.other →
      validate_input client data
        = (Except.error (ValidateError.uncaught ClientError.other),
           [probe1Call data])) := by
  refine ⟨fun h => ?_, fun r h => ?_, fun h => ?_, fun h => ?_⟩
  · simp [validate_input, h]
  · rcases h2 : client (probe2Call data) with r2 | e2
    · simp [validate_input, h, h2]
    · cases e2 <;> simp [validate_input, h, h2]
  · simp [validate_input, h]
  · simp [validate_input, h]

/-- The all-invalid-token client used to witness the amended C2. -/
def c2ClientTok : Client := fun _ => ClientResult.err ClientError.invalidToken

/-- A concrete validation input for the C2 witness. -/
def c2DataTok : ValidateData := ⟨"BAD", "PAD", ""⟩

/-- Witness for the amended C2 at a concrete client and input. -/
theorem c2_probe1_outcomes_witness :
    validate_input c2ClientTok c2DataTok
      = (Except.error ValidateError.invalidToken, [probe1Call c2DataTok]) :=
  (c2_probe1_outcomes c2ClientTok c2DataTok).1 rfl

/-! ## Claim C5 (corrected)

`validate_input` builds the title from `data["destinations"]`, which at
every call site of this module is the normalized comma-joined *string*
("CHK,VIC"), not a Python list; so the title reads
"Train Schedule Waterloo -> CHK,VIC", not the list repr the claim
states. -/

/-- The client for C5: both probes succeed and the response resolves the
station name "Waterloo". -/
def c5Client : Client := fun _ => ClientResult.ok (some "Waterloo")

/-- The C5 input: destinations field "CHK,VIC", whose derived destination
list is ["CHK", "VIC"]. -/
def c5Data : ValidateData := ⟨"TOK", "PAD", "CHK,VIC"⟩

/-- Counterexample to C5 as stated: at the claimed inputs the returned
title is "Train Schedule Waterloo -> CHK,VIC" — the claimed value
"Train Schedule Waterloo -> ['CHK', 'VIC']" is not produced. -/
theorem c5_counterexample :
    destinations_list c5Data = ["CHK", "VIC"]
    ∧ (validate_input c5Client c5Data).1
        = Except.ok ⟨"Train Schedule Waterloo -> CHK,VIC", "Waterloo"⟩
    ∧ (validate_input c5Client c5Data).1
        ≠ Except.ok ⟨"Train Schedule Waterloo -> ['CHK', 'VIC']", "Waterloo"⟩ := by
  decide

/-- C5 (amended): when both probes succeed with destinations field
"CHK,VIC" (derived destination list ["CHK","VIC"]) and the response
resolves station name "Waterloo", `validate_input` returns station_name
"Waterloo" and title "Train Schedule Waterloo -> CHK,VIC": the
destinations are rendered as the raw string held in the input record's
destinations field, not as the resolved list. -/
theorem c5_title_uses_raw_destinations (client : Client)
    (data : ValidateData) (r : Option String)
    (h1 : client (probe1Call data) = ClientResult.ok r)
    (h2 : client (probe2Call data) = ClientResult.ok (some "Waterloo"))
    (hd : data.destinations = "CHK,VIC") :
    validate_input client data
      = (Except.ok ⟨"Train Schedule Waterloo -> CHK,VIC", "Waterloo"⟩,
         [probe1Call data, probe2Call data]) := by
  have hne : data.destinations ≠ "" := by
    rw [hd]
    decide
  simp [validate_input, h1, h2, hne, hd]

/-- Witness for the amended C5 at a concrete client and input. -/
theorem c5_title_uses_raw_destinations_witness :
    validate_input c5Client c5Data
      = (Except.ok ⟨"Train Schedule Waterloo -> CHK,VIC", "Waterloo"⟩,
         [probe1Call c5Data, probe2Call c5Data]) :=
  c5_title_uses_raw_destinations c5Client c5Data (some "Waterloo") rfl rfl rfl

/-! ## Claim C6 -/

/-- C6: on a successful validation with an empty destinations field the
title is "Train Schedule (station_name) (All Destinations)", where
station_name is `res.get("station", ...)` of the probe-2 response —
falling back to the raw station code when the response carries no
station name. -/
theorem c6_all_destinations_title (client : Client) (data : ValidateData)
    (r1 r2 : Option String)
    (h1 : client (probe1Call data) = ClientResult.ok r1)
    (h2 : client (probe2Call data) = ClientResult.ok r2)
    (hd : data.destinations = "") :
    validate_input client data
      = (Except.ok ⟨"Train Schedule " ++ r2.getD data.station
            ++ " (All Destinations)", r2.getD data.station⟩,
         [probe1Call data, probe2Call data]) := by
  simp [validate_input, h1, h2, hd]

/-- The C6 witness client: both probes succeed but the response carries
no station name, exercising the fallback to the raw station code. -/
def c6Client : Client := fun _ => ClientResult.ok none

/-- The C6 witness input: empty destinations field. -/
def c6Data : ValidateData := ⟨"TOK", "PAD", ""⟩

/-- Witness for C6 at a concrete client and input: the station name falls
back to the raw code "PAD". -/
theorem c6_all_destinations_title_witness :
    validate_input c6Client c6Data
      = (Except.ok ⟨"Train Schedule PAD (All Destinations)", "PAD"⟩,
         [probe1Call c6Data, probe2Call c6Data]) :=
  c6_all_destinations_title c6Client c6Data none none rfl rfl rfl

/-! ## Claim C1 (corrected)

The destinations mutation is `.strip().replace(" ", "").upper()`: the
`replace` removes only space characters (U+0020), so interior whitespace
other than spaces — a tab, say — survives, contrary to the claim's "all
interior whitespace removed".  Everything else in the claim holds, and
the normalization is the same code in both flow steps. -/

/-- Counterexample to C1 as stated: on the submission "chk,\tvic" the
normalized destinations field still contains an interior whitespace
character (the tab), and differs from the spec-worded normalization
`specNormalizeDestinations`. -/
theorem c1_counterexample :
    (userStepNormalize ⟨"T", "wat", some "chk,\tvic"⟩).destinations
      = "CHK,\tVIC"
    ∧ ((userStepNormalize ⟨"T", "wat", some "chk,\tvic"⟩).destinations.toList.any
        Char.isWhitespace) = true
    ∧ specNormalizeDestinations (some "chk,\tvic") = "CHK,VIC"
    ∧ (userStepNormalize ⟨"T", "wat", some "chk,\tvic"⟩).destinations
        ≠ specNormalizeDestinations (some "chk,\tvic") := by
  decide

/-- C1 (amended): for every raw submission, normalization produces the
station code trimmed of surrounding whitespace and uppercased, and the
destinations field trimmed, with all interior space characters (U+0020)
removed, and uppercased when present and non-empty (other interior
whitespace, such as a tab, is preserved), otherwise coerced to the empty
string — never absent; and the setup wizard and the options editor
normalize identically. -/
theorem c1_normalization (tok st : String) (d : Option String) :
    ((userStepNormalize ⟨tok, st, d⟩).station,
        (userStepNormalize ⟨tok, st, d⟩).destinations)
      = initStepNormalize ⟨st, d⟩
    ∧ (userStepNormalize ⟨tok, st, d⟩).station = pyUpper (pyStrip st)
    ∧ (userStepNormalize ⟨tok, st, d⟩).token = tok
    ∧ (∀ s, d = some s → s ≠ "" →
        (userStepNormalize ⟨tok, st, d⟩).destinations
          = pyUpper (pyReplaceSpace (pyStrip s)))
    ∧ ' ' ∉ (userStepNormalize ⟨tok, st, d⟩).destinations.toList
    ∧ (∀ s, d = some s → pyStrip s = "" →
        (userStepNormalize ⟨tok, st, d⟩).destinations = "")
    ∧ (d = none → (userStepNormalize ⟨tok, st, d⟩).destinations = "") := by
  refine ⟨rfl, rfl, rfl, ?_, ?_, ?_, ?_⟩
  · intro s hd hs
    subst hd
    simp [userStepNormalize, normalize_destinations_user, hs]
  · cases d with
    | none => simp [userStepNormalize, normalize_destinations_user]
    | some s =>
        by_cases hs : s = ""
        · simp [userStepNormalize, normalize_destinations_user, hs]
        · have hred : (userStepNormalize ⟨tok, st, some s⟩).destinations
              = pyUpper (pyReplaceSpace (pyStrip s)) := by
            simp [userStepNormalize, normalize_destinations_user, hs]
          rw [hred]
          exact space_not_mem_upper_replace (pyStrip s)
  · intro s hd hstrip
    subst hd
    by_cases hs : s = ""
    · simp [userStepNormalize, normalize_destinations_user, hs]
    · have hred : (userStepNormalize ⟨tok, st, some s⟩).destinations
          = pyUpper (pyReplaceSpace (pyStrip s)) := by
        simp [userStepNormalize, normalize_destinations_user, hs]
      rw [hred, hstrip]
      rfl
  · intro hd
    subst hd
    rfl

/-- Witness for the amended C1 at a concrete submission. -/
theorem c1_normalization_witness :
    (userStepNormalize ⟨"T", " wat ", some " chk, vic "⟩).destinations
      = pyUpper (pyReplaceSpace (pyStrip " chk, vic ")) :=
  (c1_normalization "T" " wat " (some " chk, vic ")).2.2.2.1 " chk, vic " rfl
    (by decide)

/-! ## Claim C4 -/

/-- C4: when probe 1 succeeds and the client reports invalid input on
probe 2, `validate_input` fails with `InvalidInput`; the setup step then
redisplays the form with error tag invalid_station_input, performs no
token-store save and creates no configuration entry — its only side
effects are the two probe calls. -/
theorem c4_invalid_input_no_persistence (client : Client)
    (store : StoreData) (raw : UserStepInput) (r : Option String)
    (h1 : client (probe1Call (userStepNormalize raw)) = ClientResult.ok r)
    (h2 : client (probe2Call (userStepNormalize raw))
        = ClientResult.err ClientError.invalidInput) :
    validate_input client (userStepNormalize raw)
      = (Except.error ValidateError.invalidInput,
         [probe1Call (userStepNormalize raw),
          probe2Call (userStepNormalize raw)])
    ∧ ConfigFlow.async_step_user client store raw
      = (FlowResult.showForm "user" [("base", "invalid_station_input")],
         [Event.clientCall (probe1Call (userStepNormalize raw)),
          Event.clientCall (probe2Call (userStepNormalize raw))])
    ∧ (ConfigFlow.async_step_user client store raw).2.countP isTokenSave = 0
    ∧ (ConfigFlow.async_step_user client store raw).2.countP isEntryCreate
        = 0 := by
  have hv : validate_input client (userStepNormalize raw)
      = (Except.error ValidateError.invalidInput,
         [probe1Call (userStepNormalize raw),
          probe2Call (userStepNormalize raw)]) := by
    simp [validate_input, h1, h2]
  have hs : ConfigFlow.async_step_user client store raw
      = (FlowResult.showForm "user" [("base", "invalid_station_input")],
         [Event.clientCall (probe1Call (userStepNormalize raw)),
          Event.clientCall (probe2Call (userStepNormalize raw))]) := by
    simp [ConfigFlow.async_step_user, hv, errorTag]
  refine ⟨hv, hs, ?_, ?_⟩ <;> rw [hs] <;> rfl

/-- The C4 witness client: the sentinel call succeeds, the user-station
call reports invalid input. -/
def c4Client : Client := fun c =>
  if c.station = "WAT" then ClientResult.ok none
  else ClientResult.err ClientError.invalidInput

/-- The C4 witness submission. -/
def c4Raw : UserStepInput := ⟨"TOK", " pad ", some "chk, vic"⟩

/-- Witness for C4 at a concrete client and submission. -/
theorem c4_invalid_input_no_persistence_witness :
    ConfigFlow.async_step_user c4Client none c4Raw
      = (FlowResult.showForm "user" [("base", "invalid_station_input")],
         [Event.clientCall (probe1Call (userStepNormalize c4Raw)),
          Event.clientCall (probe2Call (userStepNormalize c4Raw))]) :=
  (c4_invalid_input_no_persistence c4Client none c4Raw none (by decide)
    (by decide)).2.1

/-! ## Claim C8 -/

/-- C8: on every setup submission on which validation succeeds (both
probes return a response), the step performs exactly one token-store save
and exactly one configuration-entry creation, the save strictly before
the creation. -/
theorem c8_save_then_create (client : Client) (store : StoreData)
    (raw : UserStepInput) (r1 r2 : Option String)
    (h1 : client (probe1Call (userStepNormalize raw)) = ClientResult.ok r1)
    (h2 : client (probe2Call (userStepNormalize raw)) = ClientResult.ok r2) :
    (ConfigFlow.async_step_user client store raw).2.countP isTokenSave = 1
    ∧ (ConfigFlow.async_step_user client store raw).2.countP isEntryCreate = 1
    ∧ (ConfigFlow.async_step_user client store raw).2.findIdx isTokenSave
        < (ConfigFlow.async_step_user client store raw).2.findIdx
            isEntryCreate := by
  have hv := validate_input_ok client (userStepNormalize raw) r1 r2 h1 h2
  have hs : (ConfigFlow.async_step_user client store raw).2
      = [Event.clientCall (probe1Call (userStepNormalize raw)),
         Event.clientCall (probe2Call (userStepNormalize raw)),
         Event.tokenSave (userStepNormalize raw).token,
         Event.entryCreate (successInfo (userStepNormalize raw) r2).title
           (userStepNormalize raw)] := by
    simp [ConfigFlow.async_step_user, hv]
  refine ⟨?_, ?_, ?_⟩ <;> rw [hs]
  · rfl
  · rfl
  · norm_num [List.findIdx_cons, isTokenSave, isEntryCreate]

/-- The C8 witness client: every call succeeds with station name
"Waterloo". -/
def c8Client : Client := fun _ => ClientResult.ok (some "Waterloo")

/-- The C8 witness submission. -/
def c8Raw : UserStepInput := ⟨"TOK", "wat", none⟩

/-- Witness for C8 at a concrete client and submission. -/
theorem c8_save_then_create_witness :
    (ConfigFlow.async_step_user c8Client none c8Raw).2.countP isTokenSave = 1
    ∧ (ConfigFlow.async_step_user c8Client none c8Raw).2.countP isEntryCreate
        = 1
    ∧ (ConfigFlow.async_step_user c8Client none c8Raw).2.findIdx isTokenSave
        < (ConfigFlow.async_step_user c8Client none c8Raw).2.findIdx
            isEntryCreate :=
  c8_save_then_create c8Client none c8Raw (some "Waterloo") (some "Waterloo")
    rfl rfl

/-! ## Claim C7 (code bug)

On an options submission with no resolvable token the `try` body finishes
without raising (it only sets `errors["base"] = "no_token"`), so the
`try`'s `else:` clause runs; it evaluates `info["title"]` but `info` was
never assigned on that path, and the resulting `UnboundLocalError` is not
caught by the (already passed) `except` clauses: the step raises instead
of redisplaying the form with the no_token tag.  The remote client is
indeed never invoked there, and the resolved-token precedence
(`stored_token or entry.data.get(CONF_TOKEN)`) is as claimed, but the
claimed form result never appears. -/

/-- The C7 failing input's store: a saved empty dict, which Python's
truthiness test treats as no stored token. -/
def c7Store : StoreData := some []

/-- The C7 failing input's config entry: it holds no token. -/
def c7Entry : OptionsEntry := ⟨none, some "PAD", some ""⟩

/-- The C7 failing submission. -/
def c7Raw : InitStepInput := ⟨"pad", none⟩

/-- A client that would answer any call, showing the step never reaches
it. -/
def c7Client : Client := fun _ => ClientResult.ok none

/-- C7 evaluated at the failing input: with no stored token and no
entry-held token the options step performs no side effect at all (in
particular the remote client is never invoked) but terminates with an
escaping UnboundLocalError — not with the claimed no_token form. -/
theorem c7_no_token_crash :
    get_stored_token c7Store = none
    ∧ c7Entry.token = none
    ∧ OptionsFlowHandler.async_step_init c7Client c7Store c7Entry c7Raw
        = (FlowResult.unhandledError "UnboundLocalError", []) := by
  decide

/-! ## Claim C9 (code bug)

The propagation policy holds for the setup step, but the options step's
no-token path raises an uncaught UnboundLocalError (see C7): an exception
does propagate out of a flow step, and no error tag is shown for it. -/

/-- The C9 failing input's store: a stored token that is the empty
string, which Python's `or` treats as falsy. -/
def c9Store : StoreData := some [("token", "")]

/-- The C9 failing input's config entry: its token is the empty string,
likewise falsy. -/
def c9Entry : OptionsEntry := ⟨some "", some "PAD", none⟩

/-- The C9 failing submission. -/
def c9Raw : InitStepInput := ⟨" kgx ", some "vic"⟩

/-- A client answering every call, showing the step never reaches it. -/
def c9Client : Client := fun _ => ClientResult.ok (some "Kings Cross")

/-- C9 evaluated at the failing input: the options step ends with an
exception escaping the step boundary instead of one of the form-level
error tags. -/
theorem c9_exception_escapes_options_step :
    OptionsFlowHandler.async_step_init c9Client c9Store c9Entry c9Raw
      = (FlowResult.unhandledError "UnboundLocalError", []) := by
  decide

end NationalRailTB
